import Mathlib

/-! # RtNTPClient: a non-blocking NTP client

A shallow embedding of `src/RtNTPClient.h` and `src/NTPClient.cpp`.

Conventions of the embedding.

* `unsigned long`, `unsigned int` and `int` are 32 bits wide on the targets of
  the library (the default update interval 300000 is passed as an `int`).
  Unsigned values are natural numbers; every operation that can wrap is
  written with an explicit reduction modulo `2^32`.
* `byte` is an unsigned 8-bit value; `mReceivedLen += len` wraps modulo `2^8`.
* `millis()` is the parameter `now` of an operation: the clock is read as
  constant during one call.
* The UDP transport is an external collaborator.  The datagram waiting in the
  transport when an operation is called is the parameter `pkt` (`[]` when no
  datagram is waiting, so that `parsePacket()` returns `0`); `read(buf, n)`
  copies the first `min n pkt.length` bytes of it to the start of `buf` and
  returns their number.  The calls an operation makes on the transport are
  returned as a list, in order.
* `printMsg` only forwards to the optional debug sink and has no effect on the
  session; it is left out, and so are `mUdp`, `mPrintFunc` and the field
  `mPort`, which no function of the class reads or writes.
-/

namespace RtNTP

/-- An Arduino `byte`. -/
abbrev Byte := Fin 256

def SEVENZYYEARS : Nat := 2208988800
def NTP_PACKET_SIZE : Nat := 48
def NTP_DEFAULT_LOCAL_PORT : Nat := 1337
def NTP_DEFAULT_SERVER : String := "time.nist.gov"
def NTP_DEFAULT_TIME_OFFSET : Int := 0
def NTP_DEFAULT_UPDATE_INTERVAL : Int := 300000
def NTP_DEFAULT_TIMEOUT : Nat := 1000

/-- Conversion of a (signed) integer to `unsigned long`. -/
def toUL (i : Int) : Nat := (i % 4294967296).toNat

/-- Subtraction of two `unsigned long` values. -/
def subUL (a b : Nat) : Nat := toUL ((a : Int) - (b : Int))

/-- Addition of two `unsigned long` values. -/
def addUL (a b : Nat) : Nat := (a + b) % 4294967296

/-- Left shift of an `unsigned long` value. -/
def shlUL (a k : Nat) : Nat := (a <<< k) % 4294967296

/-- Arduino core `word(h, l)`: the 16-bit value with high byte `h` and low byte `l`. -/
def word (h l : Byte) : Nat := ((h.val <<< 8) ||| l.val) % 65536

/-- A call made on the UDP transport. -/
inductive UdpCall where
  | begin (port : Nat)
  | stop
  | beginPacket (host : String) (port : Nat)
  | write (bytes : List Byte)
  | endPacket
  | parsePacket
  | read (maxLen : Nat)
  deriving DecidableEq, Repr

/-- The data members of `class RtNTPClient`. -/
structure RtNTPClient where
  mPoolServerName : String
  mTimeOffset : Int
  mUpdateInterval : Nat
  mCurrentEpoc : Nat
  mLastSync : Nat
  mPacketBuffer : List Byte
  mPacketSent : Bool
  mReceivedLen : Nat
  mUpdateTime : Bool
  mLastPacketSent : Nat
  deriving DecidableEq, Repr

/-- What a `bool` member function leaves behind: its return value, the session
after the call and the calls it made on the transport. -/
structure Outcome where
  ret : Bool
  state : RtNTPClient
  calls : List UdpCall
  deriving DecidableEq, Repr

/-- The constructor `RtNTPClient::RtNTPClient`, with the in-class initialisers of
the header.  The `int` port is passed to `UDP::begin(uint16_t)`, so it reaches the
transport modulo `2^16`.  The packet buffer is not initialised by the C++
constructor; it is taken as zeros here (no function reads it before
`sendNTPPacket` or a read of the transport has overwritten it). -/
def construct (poolServerName : String) (timeOffset updateInterval port : Int) :
    RtNTPClient × List UdpCall :=
  ({ mPoolServerName := poolServerName
     mTimeOffset := timeOffset
     mUpdateInterval := toUL updateInterval
     mCurrentEpoc := 0
     mLastSync := 0
     mPacketBuffer := List.replicate NTP_PACKET_SIZE 0
     mPacketSent := false
     mReceivedLen := 0
     mUpdateTime := true
     mLastPacketSent := 0 },
   [UdpCall.begin (port % 65536).toNat])

/-- The constructor with every default argument of the header. -/
def constructDefault : RtNTPClient × List UdpCall :=
  construct NTP_DEFAULT_SERVER 0 NTP_DEFAULT_UPDATE_INTERVAL NTP_DEFAULT_LOCAL_PORT

/-- The member function `RtNTPClient::sendNTPPacket`. -/
def sendNTPPacket (s : RtNTPClient) : RtNTPClient × List UdpCall :=
  -- memset(mPacketBuffer, 0, NTP_PACKET_SIZE)
  let b : List Byte := List.replicate NTP_PACKET_SIZE 0
  let b := b.set 0 0b11100011
  let b := b.set 1 0
  let b := b.set 2 6
  let b := b.set 3 0xEC
  let b := b.set 12 49
  let b := b.set 13 0x4E
  let b := b.set 14 49
  let b := b.set 15 52
  ({ s with mPacketBuffer := b },
   [UdpCall.beginPacket s.mPoolServerName 123,
    UdpCall.write (b.take NTP_PACKET_SIZE),
    UdpCall.endPacket])

/-- The reply decoding of `forceUpdate` (lines 62 to 67): the transmit timestamp
seconds of the packet buffer, less the seventy years between 1900 and 1970. -/
def decodeReply (buf : List Byte) : Nat :=
  let highWord := word (buf.getD 40 0) (buf.getD 41 0)
  let lowWord := word (buf.getD 42 0) (buf.getD 43 0)
  let secsSince1900 := shlUL highWord 16 ||| lowWord
  subUL secsSince1900 SEVENZYYEARS

/-- The effect of `mUdp->read(buf, maxLen)` on the buffer when `pkt` is waiting. -/
def readInto (buf pkt : List Byte) (maxLen : Nat) : List Byte :=
  pkt.take maxLen ++ buf.drop (pkt.take maxLen).length

/-- The member function `RtNTPClient::forceUpdate`. -/
def forceUpdate (s : RtNTPClient) (now : Nat) (pkt : List Byte) : Outcome :=
  let s1 := if subUL now s.mLastPacketSent > NTP_DEFAULT_TIMEOUT
    then { s with mPacketSent := false } else s
  let sent := if s1.mPacketSent == false then
      let p := sendNTPPacket s1
      ({ p.1 with mPacketSent := true, mLastPacketSent := now }, p.2)
    else (s1, [])
  let s2 := sent.1
  let c2 := sent.2
  let pktSize := pkt.length
  if pktSize == 0 then
    { ret := false, state := s2, calls := c2 ++ [UdpCall.parsePacket] }
  else
    let len := (pkt.take NTP_PACKET_SIZE).length
    let s3 := { s2 with
      mPacketBuffer := readInto s2.mPacketBuffer pkt NTP_PACKET_SIZE
      mReceivedLen := (s2.mReceivedLen + len) % 256 }
    let c3 := c2 ++ [UdpCall.parsePacket, UdpCall.read NTP_PACKET_SIZE]
    if s3.mReceivedLen == NTP_PACKET_SIZE then
      { ret := true
        state := { s3 with
          mLastSync := now
          mCurrentEpoc := decodeReply s3.mPacketBuffer
          mPacketSent := false
          mReceivedLen := 0 }
        calls := c3 }
    else
      { ret := false, state := s3, calls := c3 }

/-- The member function `RtNTPClient::update`. -/
def update (s : RtNTPClient) (now : Nat) (pkt : List Byte) : Outcome :=
  if subUL now s.mLastSync ≥ s.mUpdateInterval || s.mPacketSent == false then
    forceUpdate s now pkt
  else
    { ret := false, state := s, calls := [] }

/-- The member function `RtNTPClient::getEpochTime`. -/
def getEpochTime (s : RtNTPClient) (now : Nat) : Nat :=
  addUL (addUL (toUL s.mTimeOffset) s.mCurrentEpoc) (subUL now s.mLastSync / 1000)

/-- The member function `RtNTPClient::getDay`. -/
def getDay (s : RtNTPClient) (now : Nat) : Nat :=
  addUL (getEpochTime s now / 86400) 4 % 7

/-- The member function `RtNTPClient::getHours`. -/
def getHours (s : RtNTPClient) (now : Nat) : Nat :=
  (getEpochTime s now % 86400) / 3600

/-- The member function `RtNTPClient::getMinutes`. -/
def getMinutes (s : RtNTPClient) (now : Nat) : Nat :=
  (getEpochTime s now % 3600) / 60

/-- The member function `RtNTPClient::getSeconds`. -/
def getSeconds (s : RtNTPClient) (now : Nat) : Nat :=
  getEpochTime s now % 60

/-- The member function `RtNTPClient::getFormattedTime`. -/
def getFormattedTime (s : RtNTPClient) (now : Nat) : String :=
  let rawTime := getEpochTime s now
  let hours := (rawTime % 86400) / 3600
  let hoursStr := if hours < 10 then "0" ++ toString hours else toString hours
  let minutes := (rawTime % 3600) / 60
  let minuteStr := if minutes < 10 then "0" ++ toString minutes else toString minutes
  let seconds := rawTime % 60
  let secondStr := if seconds < 10 then "0" ++ toString seconds else toString seconds
  hoursStr ++ ":" ++ minuteStr ++ ":" ++ secondStr

/-- The member function `RtNTPClient::setTimeOffset`. -/
def setTimeOffset (s : RtNTPClient) (timeOffset : Int) : RtNTPClient :=
  { s with mTimeOffset := timeOffset }

/-- The member function `RtNTPClient::setUpdateInterval`. -/
def setUpdateInterval (s : RtNTPClient) (updateInterval : Int) : RtNTPClient :=
  { s with mUpdateInterval := toUL updateInterval }

/-- The payloads of the datagrams sent by a list of transport calls. -/
def sentPackets : List UdpCall → List (List Byte)
  | [] => []
  | UdpCall.write b :: cs => b :: sentPackets cs
  | _ :: cs => sentPackets cs

/-- The fixed 48-byte NTP client request. -/
def requestBytes : List Byte :=
  [0xE3, 0, 6, 0xEC, 0, 0, 0, 0, 0, 0, 0, 0, 49, 0x4E, 49, 52,
   0, 0, 0, 0, 0, 0, 0, 0, 0, 0, 0, 0, 0, 0, 0, 0,
   0, 0, 0, 0, 0, 0, 0, 0, 0, 0, 0, 0, 0, 0, 0, 0]

/-- Lines 41 to 49 of `forceUpdate`: the timeout test and the send decision. -/
def sendPhase (s : RtNTPClient) (now : Nat) : RtNTPClient × List UdpCall :=
  let s1 := if subUL now s.mLastPacketSent > NTP_DEFAULT_TIMEOUT
    then { s with mPacketSent := false } else s
  if s1.mPacketSent == false then
    let p := sendNTPPacket s1
    ({ p.1 with mPacketSent := true, mLastPacketSent := now }, p.2)
  else (s1, [])

/-- Lines 51 to 77 of `forceUpdate`: the receive check and the accumulation. -/
def receivePhase (s2 : RtNTPClient) (c2 : List UdpCall) (now : Nat) (pkt : List Byte) :
    Outcome :=
  if pkt.length == 0 then
    { ret := false, state := s2, calls := c2 ++ [UdpCall.parsePacket] }
  else
    let len := (pkt.take NTP_PACKET_SIZE).length
    let s3 := { s2 with
      mPacketBuffer := readInto s2.mPacketBuffer pkt NTP_PACKET_SIZE
      mReceivedLen := (s2.mReceivedLen + len) % 256 }
    let c3 := c2 ++ [UdpCall.parsePacket, UdpCall.read NTP_PACKET_SIZE]
    if s3.mReceivedLen == NTP_PACKET_SIZE then
      { ret := true
        state := { s3 with
          mLastSync := now
          mCurrentEpoc := decodeReply s3.mPacketBuffer
          mPacketSent := false
          mReceivedLen := 0 }
        calls := c3 }
    else
      { ret := false, state := s3, calls := c3 }

/-- The big-endian 32-bit value of four bytes. -/
def be32 (b0 b1 b2 b3 : Byte) : Nat :=
  b0.val <<< 24 ||| b1.val <<< 16 ||| b2.val <<< 8 ||| b3.val

/-! ## Sample sessions and datagrams -/

/-- A 48-byte reply whose transmit timestamp is 2208988800 seconds since 1900. -/
def sampleReply : List Byte :=
  List.replicate 40 0 ++ [0x83, 0xAA, 0x7E, 0x80] ++ List.replicate 4 0

/-- A 48-byte reply with no zero byte whose transmit timestamp is 2208992461. -/
def sampleReply2 : List Byte :=
  List.replicate 40 0x11 ++ [0x83, 0xAA, 0x8C, 0xCD] ++ List.replicate 4 0x22

/-- The session built with the default arguments. -/
def freshSession : RtNTPClient := constructDefault.1

/-- The session after a first `forceUpdate` at time 0 that found no datagram: a request
is pending and no byte is accumulated. -/
def pendingSession : RtNTPClient := (forceUpdate freshSession 0 []).state

/-- The pending session after a 20-byte datagram arrived at time 10. -/
def fragmentSession : RtNTPClient := (forceUpdate pendingSession 10 (sampleReply.take 20)).state

/-- The session after a complete reply arrived at time 7. -/
def syncedSession : RtNTPClient := (forceUpdate freshSession 7 sampleReply).state

/-- A session with a negative offset: offset -3600, epoch 7200, synced at 1000 ms. -/
def offsetSession : RtNTPClient :=
  { freshSession with mTimeOffset := -3600, mCurrentEpoc := 7200, mLastSync := 1000 }

/-- A session built with the offset -18000 (five hours west) and not yet synced. -/
def westSession : RtNTPClient :=
  (construct NTP_DEFAULT_SERVER (-18000) NTP_DEFAULT_UPDATE_INTERVAL NTP_DEFAULT_LOCAL_PORT).1

/-- The datagram of one call of a run of complete replies: nothing, or 48 bytes. -/
def replyDatagram : Option (Fin 48 → Byte) → List Byte
  | none => []
  | some f => List.ofFn f

/-- The return values of successive `forceUpdate` calls, each made at its own clock reading
and finding either no datagram or a complete 48-byte reply. -/
def forceUpdateRun (s : RtNTPClient) : List (Nat × Option (Fin 48 → Byte)) → List Bool
  | [] => []
  | (now, d) :: rest =>
    (forceUpdate s now (replyDatagram d)).ret
      :: forceUpdateRun (forceUpdate s now (replyDatagram d)).state rest

/-- The two-digit, zero-padded decimal numeral of a number below 100: the character of
its tens digit followed by the character of its units digit. -/
def twoDigits (n : Nat) : String :=
  String.mk [Char.ofNat (48 + n / 10 % 10), Char.ofNat (48 + n % 10)]

/-- The outcomes of successive `forceUpdate` calls, one at each clock reading of the list,
each finding no datagram in the transport. -/
def forceUpdateIdleRun (s : RtNTPClient) : List Nat → List Outcome
  | [] => []
  | now :: rest => forceUpdate s now [] :: forceUpdateIdleRun (forceUpdate s now []).state rest

/-! ## Arithmetic lemmas -/

theorem mul_or_eq_add (a b i : Nat) (h : b < 2 ^ i) : a * 2 ^ i ||| b = a * 2 ^ i + b := by
  rw [Nat.mul_comm, ← Nat.mul_add_lt_is_or h]

theorem word_eq (h l : Byte) : word h l = h.val * 256 + l.val := by
  have h1 := h.isLt
  have h2 := l.isLt
  have e := mul_or_eq_add h.val l.val 8 (by simp)
  simp only [word, Nat.shiftLeft_eq, e]
  omega

theorem be32_eq (b0 b1 b2 b3 : Byte) :
    be32 b0 b1 b2 b3 = b0.val * 16777216 + b1.val * 65536 + b2.val * 256 + b3.val := by
  have h0 := b0.isLt
  have h1 := b1.isLt
  have h2 := b2.isLt
  have h3 := b3.isLt
  have e1 := mul_or_eq_add b0.val (b1.val * 2 ^ 16) 24 (by omega)
  have e2 := mul_or_eq_add (b0.val * 256 + b1.val) (b2.val * 2 ^ 8) 16 (by omega)
  have e3 := mul_or_eq_add (b0.val * 65536 + b1.val * 256 + b2.val) b3.val 8 (by omega)
  have r2 : b0.val * 2 ^ 24 + b1.val * 2 ^ 16 = (b0.val * 256 + b1.val) * 2 ^ 16 := by omega
  have r3 : (b0.val * 256 + b1.val) * 2 ^ 16 + b2.val * 2 ^ 8
      = (b0.val * 65536 + b1.val * 256 + b2.val) * 2 ^ 8 := by omega
  simp only [be32, Nat.shiftLeft_eq]
  rw [e1, r2, e2, r3, e3]
  omega

theorem secs_eq (b0 b1 b2 b3 : Byte) :
    shlUL (word b0 b1) 16 ||| word b2 b3
      = b0.val * 16777216 + b1.val * 65536 + b2.val * 256 + b3.val := by
  have h0 := b0.isLt
  have h1 := b1.isLt
  have h2 := b2.isLt
  have h3 := b3.isLt
  have e := mul_or_eq_add (b0.val * 256 + b1.val) (b2.val * 256 + b3.val) 16 (by omega)
  have m : (b0.val * 256 + b1.val) * 2 ^ 16 % 4294967296
      = (b0.val * 256 + b1.val) * 2 ^ 16 := Nat.mod_eq_of_lt (by omega)
  simp only [shlUL, word_eq, Nat.shiftLeft_eq, m, e]
  omega

/-! ## The two phases of `forceUpdate` -/

theorem forceUpdate_eq_phases (s : RtNTPClient) (now : Nat) (pkt : List Byte) :
    forceUpdate s now pkt
      = receivePhase (sendPhase s now).1 (sendPhase s now).2 now pkt := by
  rfl

theorem sendNTPPacket_eq (s : RtNTPClient) :
    sendNTPPacket s = ({ s with mPacketBuffer := requestBytes },
      [UdpCall.beginPacket s.mPoolServerName 123, UdpCall.write requestBytes,
        UdpCall.endPacket]) := by
  rfl

theorem sendPhase_eq (s : RtNTPClient) (now : Nat) :
    sendPhase s now
      = if subUL now s.mLastPacketSent > NTP_DEFAULT_TIMEOUT ∨ s.mPacketSent = false then
          ({ s with mPacketBuffer := requestBytes, mPacketSent := true,
                    mLastPacketSent := now },
           [UdpCall.beginPacket s.mPoolServerName 123, UdpCall.write requestBytes,
             UdpCall.endPacket])
        else (s, []) := by
  unfold sendPhase
  simp only [sendNTPPacket_eq]
  by_cases h1 : subUL now s.mLastPacketSent > NTP_DEFAULT_TIMEOUT
  · simp [h1]
  · cases h2 : s.mPacketSent <;> simp [h1, h2]

theorem sendPhase_mReceivedLen (s : RtNTPClient) (now : Nat) :
    (sendPhase s now).1.mReceivedLen = s.mReceivedLen := by
  rw [sendPhase_eq]
  split_ifs <;> rfl

theorem getD_readInto_full (buf pkt r : List Byte) (i : Nat) (hr : r.length = 48)
    (hpkt : pkt.take 48 = r) (hi : i < 48) :
    (readInto buf pkt NTP_PACKET_SIZE).getD i 0 = r.getD i 0 := by
  unfold readInto NTP_PACKET_SIZE
  rw [hpkt]
  simp only [List.getD_eq_getElem?_getD]
  rw [List.getElem?_append_left (by omega)]

theorem decodeReply_eq (buf : List Byte) :
    (decodeReply buf : Int)
      = ((be32 (buf.getD 40 0) (buf.getD 41 0) (buf.getD 42 0) (buf.getD 43 0) : Nat)
          - 2208988800) % 4294967296 := by
  unfold decodeReply
  simp only [secs_eq, be32_eq, subUL, toUL, SEVENZYYEARS]
  omega

theorem receivePhase_none (s2 : RtNTPClient) (c2 : List UdpCall) (now : Nat) :
    receivePhase s2 c2 now []
      = { ret := false, state := s2, calls := c2 ++ [UdpCall.parsePacket] } := by
  rfl

theorem receivePhase_complete (s2 : RtNTPClient) (c2 : List UdpCall) (now : Nat)
    (pkt : List Byte) (hne : pkt ≠ [])
    (h : (s2.mReceivedLen + (pkt.take NTP_PACKET_SIZE).length) % 256 = NTP_PACKET_SIZE) :
    receivePhase s2 c2 now pkt
      = { ret := true
          state := { s2 with
            mPacketBuffer := readInto s2.mPacketBuffer pkt NTP_PACKET_SIZE
            mLastSync := now
            mCurrentEpoc := decodeReply (readInto s2.mPacketBuffer pkt NTP_PACKET_SIZE)
            mPacketSent := false
            mReceivedLen := 0 }
          calls := c2 ++ [UdpCall.parsePacket, UdpCall.read NTP_PACKET_SIZE] } := by
  unfold receivePhase
  simp only [List.length_take] at h
  simp [hne, h]

theorem receivePhase_incomplete (s2 : RtNTPClient) (c2 : List UdpCall) (now : Nat)
    (pkt : List Byte) (hne : pkt ≠ [])
    (h : (s2.mReceivedLen + (pkt.take NTP_PACKET_SIZE).length) % 256 ≠ NTP_PACKET_SIZE) :
    receivePhase s2 c2 now pkt
      = { ret := false
          state := { s2 with
            mPacketBuffer := readInto s2.mPacketBuffer pkt NTP_PACKET_SIZE
            mReceivedLen := (s2.mReceivedLen + (pkt.take NTP_PACKET_SIZE).length) % 256 }
          calls := c2 ++ [UdpCall.parsePacket, UdpCall.read NTP_PACKET_SIZE] } := by
  unfold receivePhase
  simp only [List.length_take] at h
  simp [hne, h]

theorem forceUpdate_stuck (s : RtNTPClient) (now : Nat) (pkt : List Byte)
    (h : s.mReceivedLen % 16 = 4) (hp : pkt = [] ∨ pkt.length = 48) :
    (forceUpdate s now pkt).ret = false ∧ (forceUpdate s now pkt).state.mReceivedLen % 16 = 4 := by
  rw [forceUpdate_eq_phases]
  have hs := sendPhase_mReceivedLen s now
  rcases hp with hp | hp
  · subst hp
    rw [receivePhase_none]
    exact ⟨rfl, by rw [hs]; exact h⟩
  · have hne : pkt ≠ [] := by
      intro e
      subst e
      simp at hp
    have hlen : (pkt.take NTP_PACKET_SIZE).length = 48 := by
      simp [NTP_PACKET_SIZE, hp]
    rw [receivePhase_incomplete _ _ _ _ hne (by rw [hs, hlen, NTP_PACKET_SIZE]; omega)]
    refine ⟨rfl, ?_⟩
    show ((sendPhase s now).1.mReceivedLen + (pkt.take NTP_PACKET_SIZE).length) % 256 % 16 = 4
    rw [hs, hlen]
    omega

theorem replyDatagram_shape (d : Option (Fin 48 → Byte)) :
    replyDatagram d = [] ∨ (replyDatagram d).length = 48 := by
  cases d with
  | none => exact Or.inl rfl
  | some f => exact Or.inr (by simp [replyDatagram])

theorem forceUpdateRun_stuck (inputs : List (Nat × Option (Fin 48 → Byte))) :
    ∀ s : RtNTPClient, s.mReceivedLen % 16 = 4 → ∀ b ∈ forceUpdateRun s inputs, b = false := by
  induction inputs with
  | nil =>
    intro s _ b hb
    simp [forceUpdateRun] at hb
  | cons p rest ih =>
    intro s h b hb
    obtain ⟨now, d⟩ := p
    have hstep := forceUpdate_stuck s now (replyDatagram d) h (replyDatagram_shape d)
    simp only [forceUpdateRun, List.mem_cons] at hb
    rcases hb with hb | hb
    · rw [hb]
      exact hstep.1
    · exact ih _ hstep.2 b hb

theorem subUL_of_le (a b : Nat) (hle : b ≤ a) (ha : a < 4294967296) : subUL a b = a - b := by
  unfold subUL toUL
  omega

theorem getEpochTime_lt (s : RtNTPClient) (now : Nat) : getEpochTime s now < 4294967296 := by
  unfold getEpochTime addUL
  omega

theorem pad_eq_twoDigits :
    ∀ n, n < 60 → (if n < 10 then "0" ++ toString n else toString n) = twoDigits n := by
  decide

theorem twoDigits_length (n : Nat) : (twoDigits n).length = 2 := by
  rfl

theorem forceUpdate_idle (s : RtNTPClient) (now : Nat) (hsent : s.mPacketSent = true)
    (hnow : subUL now s.mLastPacketSent ≤ NTP_DEFAULT_TIMEOUT) :
    forceUpdate s now [] = { ret := false, state := s, calls := [UdpCall.parsePacket] } := by
  rw [forceUpdate_eq_phases, receivePhase_none, sendPhase_eq]
  rw [if_neg (by simp [hsent, hnow])]
  rfl

theorem getEpochTime_congr (s t : RtNTPClient) (now : Nat)
    (h1 : t.mTimeOffset = s.mTimeOffset) (h2 : t.mCurrentEpoc = s.mCurrentEpoc)
    (h3 : t.mLastSync = s.mLastSync) : getEpochTime t now = getEpochTime s now := by
  unfold getEpochTime
  rw [h1, h2, h3]

theorem sendPhase_snapshot (s : RtNTPClient) (now : Nat) :
    (sendPhase s now).1.mTimeOffset = s.mTimeOffset ∧
    (sendPhase s now).1.mCurrentEpoc = s.mCurrentEpoc ∧
    (sendPhase s now).1.mLastSync = s.mLastSync := by
  rw [sendPhase_eq]
  split_ifs
  · exact ⟨rfl, rfl, rfl⟩
  · exact ⟨rfl, rfl, rfl⟩

theorem forceUpdate_false_snapshot (s : RtNTPClient) (now : Nat) (pkt : List Byte)
    (hret : (forceUpdate s now pkt).ret = false) :
    (forceUpdate s now pkt).state.mTimeOffset = s.mTimeOffset ∧
    (forceUpdate s now pkt).state.mCurrentEpoc = s.mCurrentEpoc ∧
    (forceUpdate s now pkt).state.mLastSync = s.mLastSync := by
  have hs := sendPhase_snapshot s now
  rw [forceUpdate_eq_phases] at hret ⊢
  by_cases hne : pkt = []
  · subst hne
    rw [receivePhase_none]
    exact hs
  · by_cases h : ((sendPhase s now).1.mReceivedLen + (pkt.take NTP_PACKET_SIZE).length) % 256
        = NTP_PACKET_SIZE
    · rw [receivePhase_complete _ _ now pkt hne h] at hret
      exact Bool.noConfusion hret
    · rw [receivePhase_incomplete _ _ now pkt hne h]
      exact hs

theorem forceUpdate_true_datagram (s : RtNTPClient) (now : Nat) (pkt : List Byte)
    (hret : (forceUpdate s now pkt).ret = true) : pkt ≠ [] := by
  intro hne
  subst hne
  rw [forceUpdate_eq_phases, receivePhase_none] at hret
  exact Bool.noConfusion hret

theorem update_cases (s : RtNTPClient) (now : Nat) (pkt : List Byte) :
    update s now pkt = forceUpdate s now pkt ∨
    update s now pkt = { ret := false, state := s, calls := [] } := by
  unfold update
  split_ifs
  · exact Or.inl rfl
  · exact Or.inr rfl

/-! ## Claims -/

/-- C1: from a session with no byte accumulated, a `forceUpdate` call at `now` whose read
delivers exactly the 48 bytes of a reply `r` (the first 48 bytes of the waiting datagram)
returns true and leaves `mCurrentEpoc` equal to the big-endian value of bytes 40..43 less
2208988800 modulo `2^32`, `mLastSync = now`, `mPacketSent = false` and `mReceivedLen = 0`;
for bytes 40..43 equal to `0x83, 0xAA, 0x7E, 0x80` the epoch is 0. -/
theorem forceUpdate_complete_reply_syncs (s : RtNTPClient) (now : Nat) (r pkt : List Byte)
    (hr : r.length = 48) (h0 : s.mReceivedLen = 0) (hpkt : pkt.take 48 = r) :
    (forceUpdate s now pkt).ret = true ∧
    ((forceUpdate s now pkt).state.mCurrentEpoc : Int)
      = ((be32 (r.getD 40 0) (r.getD 41 0) (r.getD 42 0) (r.getD 43 0) : Nat) - 2208988800)
          % 4294967296 ∧
    (forceUpdate s now pkt).state.mLastSync = now ∧
    (forceUpdate s now pkt).state.mPacketSent = false ∧
    (forceUpdate s now pkt).state.mReceivedLen = 0 ∧
    (r.getD 40 0 = 0x83 → r.getD 41 0 = 0xAA → r.getD 42 0 = 0x7E → r.getD 43 0 = 0x80 →
      (forceUpdate s now pkt).state.mCurrentEpoc = 0) := by
  have hlen : (pkt.take NTP_PACKET_SIZE).length = 48 := by
    unfold NTP_PACKET_SIZE
    rw [hpkt, hr]
  have hne : pkt ≠ [] := by
    intro h
    subst h
    simp [NTP_PACKET_SIZE] at hlen
  have hstep := receivePhase_complete (sendPhase s now).1 (sendPhase s now).2 now pkt hne
    (by rw [sendPhase_mReceivedLen, h0, hlen]; rfl)
  rw [← forceUpdate_eq_phases] at hstep
  have hdec : ((forceUpdate s now pkt).state.mCurrentEpoc : Int)
      = ((be32 (r.getD 40 0) (r.getD 41 0) (r.getD 42 0) (r.getD 43 0) : Nat) - 2208988800)
          % 4294967296 := by
    rw [hstep]
    show ((decodeReply _ : Nat) : Int) = _
    rw [decodeReply_eq]
    rw [getD_readInto_full _ pkt r 40 hr hpkt (by omega),
      getD_readInto_full _ pkt r 41 hr hpkt (by omega),
      getD_readInto_full _ pkt r 42 hr hpkt (by omega),
      getD_readInto_full _ pkt r 43 hr hpkt (by omega)]
  refine ⟨by rw [hstep], hdec, by rw [hstep], by rw [hstep], by rw [hstep], ?_⟩
  intro e40 e41 e42 e43
  rw [e40, e41, e42, e43] at hdec
  have hb : be32 (0x83 : Byte) 0xAA 0x7E 0x80 = 2208988800 := by decide
  rw [hb] at hdec
  have : ((forceUpdate s now pkt).state.mCurrentEpoc : Int) = 0 := by
    rw [hdec]
    norm_num
  exact_mod_cast this

/-- Witness of C1: a 50-byte datagram, truncated to the 48 bytes of `sampleReply`, reaches
the freshly built session at time 5. -/
theorem forceUpdate_complete_reply_syncs_witness :
    sampleReply.length = 48 ∧ freshSession.mReceivedLen = 0 ∧
    (sampleReply ++ [1, 2]).take 48 = sampleReply ∧
    (forceUpdate freshSession 5 (sampleReply ++ [1, 2])).ret = true ∧
    (forceUpdate freshSession 5 (sampleReply ++ [1, 2])).state.mCurrentEpoc = 0 ∧
    (forceUpdate freshSession 5 (sampleReply ++ [1, 2])).state.mLastSync = 5 :=
  have h := forceUpdate_complete_reply_syncs freshSession 5 sampleReply (sampleReply ++ [1, 2])
    (by decide) (by decide) (by decide)
  ⟨by decide, by decide, by decide, h.1,
    h.2.2.2.2.2 (by decide) (by decide) (by decide) (by decide), h.2.2.1⟩

/-- C2: decode round trip.  For every `S < 2^32` and every buffer whose bytes 40..43 hold `S`
big-endian, the reply decoding of `forceUpdate` yields `(S - 2208988800) mod 2^32`, which is
`S - 2208988800` when `S ≥ 2208988800`; and two buffers that agree on bytes 40..43 decode to
the same value. -/
theorem decodeReply_round_trip (S : Nat) (buf : List Byte) (hS : S < 4294967296)
    (_hlen : buf.length = 48)
    (h40 : (buf.getD 40 0).val = S / 16777216)
    (h41 : (buf.getD 41 0).val = S / 65536 % 256)
    (h42 : (buf.getD 42 0).val = S / 256 % 256)
    (h43 : (buf.getD 43 0).val = S % 256) :
    (decodeReply buf : Int) = ((S : Int) - 2208988800) % 4294967296 ∧
    (2208988800 ≤ S → decodeReply buf = S - 2208988800) ∧
    (∀ other : List Byte, other.getD 40 0 = buf.getD 40 0 → other.getD 41 0 = buf.getD 41 0 →
      other.getD 42 0 = buf.getD 42 0 → other.getD 43 0 = buf.getD 43 0 →
      decodeReply other = decodeReply buf) := by
  have hb : be32 (buf.getD 40 0) (buf.getD 41 0) (buf.getD 42 0) (buf.getD 43 0) = S := by
    rw [be32_eq, h40, h41, h42, h43]
    omega
  have hd := decodeReply_eq buf
  rw [hb] at hd
  refine ⟨hd, ?_, ?_⟩
  · intro hge
    omega
  · intro other e40 e41 e42 e43
    unfold decodeReply
    rw [e40, e41, e42, e43]

/-- Witness of C2: `sampleReply2` carries `S = 2208992461` and decodes to 3661. -/
theorem decodeReply_round_trip_witness :
    sampleReply2.length = 48 ∧ decodeReply sampleReply2 = 3661 :=
  have h := decodeReply_round_trip 2208992461 sampleReply2 (by decide) (by decide)
    (by decide) (by decide) (by decide) (by decide)
  ⟨by decide, h.2.1 (by decide)⟩

/-- C3: whatever the packet buffer held before, `sendNTPPacket` writes one datagram to port
123 of the configured server, and its payload is the fixed 48-byte request: `0xE3, 0, 6, 0xEC`,
eight zeros, `49, 0x4E, 49, 52`, then thirty-two zeros. -/
theorem sendNTPPacket_fixed_request (s : RtNTPClient) :
    (sendNTPPacket s).2
      = [UdpCall.beginPacket s.mPoolServerName 123,
         UdpCall.write
           [0xE3, 0, 6, 0xEC, 0, 0, 0, 0, 0, 0, 0, 0, 49, 0x4E, 49, 52,
            0, 0, 0, 0, 0, 0, 0, 0, 0, 0, 0, 0, 0, 0, 0, 0,
            0, 0, 0, 0, 0, 0, 0, 0, 0, 0, 0, 0, 0, 0, 0, 0],
         UdpCall.endPacket] ∧
    (∀ t : RtNTPClient, sentPackets (sendNTPPacket t).2 = sentPackets (sendNTPPacket s).2) ∧
    (sentPackets (sendNTPPacket s).2).map List.length = [48] := by
  refine ⟨rfl, fun t => rfl, rfl⟩

/-- C4: fragmented delivery.  A request is pending and no byte is accumulated; the first 20
bytes of `sampleReply` arrive at time 10 and the other 28 at time 20.  The first call returns
false and the second true, but the second read lands at the start of the buffer again, so
bytes 40..43 are the zeros of the request and the epoch is `2^32 - 2208988800`, whereas the
same reply delivered as one datagram gives the epoch 0. -/
theorem forceUpdate_fragments_decode_request_bytes :
    pendingSession.mPacketSent = true ∧ pendingSession.mReceivedLen = 0 ∧
    (forceUpdate pendingSession 10 (sampleReply.take 20)).ret = false ∧
    (forceUpdate fragmentSession 20 (sampleReply.drop 20)).ret = true ∧
    (forceUpdate fragmentSession 20 (sampleReply.drop 20)).state.mCurrentEpoc = 2085978496 ∧
    (forceUpdate pendingSession 10 sampleReply).ret = true ∧
    (forceUpdate pendingSession 10 sampleReply).state.mCurrentEpoc = 0 := by
  decide

/-- C5: timeout.  `fragmentSession` has a pending request sent at time 0 and 20 accumulated
bytes.  A `forceUpdate` call at time 1001 that finds no datagram sends exactly one request and
records `mLastPacketSent = 1001`, but `mReceivedLen` is still 20 afterwards. -/
theorem forceUpdate_timeout_keeps_mReceivedLen :
    fragmentSession.mPacketSent = true ∧ fragmentSession.mLastPacketSent = 0 ∧
    fragmentSession.mReceivedLen = 20 ∧
    sentPackets (forceUpdate fragmentSession 1001 []).calls = [requestBytes] ∧
    (forceUpdate fragmentSession 1001 []).state.mLastPacketSent = 1001 ∧
    (forceUpdate fragmentSession 1001 []).state.mReceivedLen = 20 := by
  decide

/-- C6: retry after a timeout.  From `fragmentSession` (request sent at time 0, 20 bytes
accumulated) a `forceUpdate` call at time 1001 that receives the complete 48-byte
`sampleReply` returns false, leaves `mCurrentEpoc` as it was and `mReceivedLen = 68`; and in
every run of `forceUpdate` calls from that session, at any clock readings, each finding no
datagram or a complete 48-byte reply, no call returns true. -/
theorem forceUpdate_retry_never_syncs :
    (forceUpdate fragmentSession 1001 sampleReply).ret = false ∧
    (forceUpdate fragmentSession 1001 sampleReply).state.mCurrentEpoc
      = fragmentSession.mCurrentEpoc ∧
    (forceUpdate fragmentSession 1001 sampleReply).state.mReceivedLen = 68 ∧
    (∀ inputs : List (Nat × Option (Fin 48 → Byte)),
      ∀ b ∈ forceUpdateRun fragmentSession inputs, b = false) := by
  refine ⟨by decide, by decide, by decide, ?_⟩
  intro inputs
  exact forceUpdateRun_stuck inputs fragmentSession (by decide)

/-- C7: throttling.  `syncedSession` is the session after a successful sync at time 7, with
the default update interval 300000.  A call of `update` at time 8 that finds no datagram
sends one request, although only 1 ms of the interval has passed. -/
theorem update_after_sync_sends_request :
    (forceUpdate freshSession 7 sampleReply).ret = true ∧
    syncedSession.mLastSync = 7 ∧ syncedSession.mUpdateInterval = 300000 ∧
    sentPackets (update syncedSession 8 []).calls = [requestBytes] := by
  decide

/-- C8: `update` is `forceUpdate` behind a guard.  The guard compares the `unsigned long`
difference `now - mLastSync` (taken modulo `2^32`) with `mUpdateInterval`.  When the guard
holds or no request is pending, `update` is exactly `forceUpdate`; otherwise it returns
false, makes no call on the transport (whatever datagram is waiting) and leaves the session
unchanged.  For `mLastSync ≤ now < 2^32` the guard is the plain difference. -/
theorem update_eq_guarded_forceUpdate (s : RtNTPClient) (now : Nat) (pkt : List Byte) :
    (((s.mUpdateInterval : Int) ≤ ((now : Int) - s.mLastSync) % 4294967296
        ∨ s.mPacketSent = false) →
      update s now pkt = forceUpdate s now pkt) ∧
    (¬ ((s.mUpdateInterval : Int) ≤ ((now : Int) - s.mLastSync) % 4294967296
        ∨ s.mPacketSent = false) →
      (update s now pkt).ret = false ∧ (update s now pkt).calls = [] ∧
      (update s now pkt).state = s) ∧
    (s.mLastSync ≤ now → now < 4294967296 →
      (s.mUpdateInterval ≤ now - s.mLastSync ∨ s.mPacketSent = false) →
      update s now pkt = forceUpdate s now pkt) ∧
    (s.mLastSync ≤ now → now < 4294967296 →
      ¬ (s.mUpdateInterval ≤ now - s.mLastSync ∨ s.mPacketSent = false) →
      update s now pkt = { ret := false, state := s, calls := [] }) := by
  have hsub : ((subUL now s.mLastSync : Nat) : Int)
      = ((now : Int) - s.mLastSync) % 4294967296 := by
    unfold subUL toUL
    omega
  have hguard : ((s.mUpdateInterval : Int) ≤ ((now : Int) - s.mLastSync) % 4294967296
      ∨ s.mPacketSent = false)
      ↔ (subUL now s.mLastSync ≥ s.mUpdateInterval ∨ s.mPacketSent = false) := by
    rw [← hsub]
    constructor
    · rintro (h | h)
      · exact Or.inl (by exact_mod_cast h)
      · exact Or.inr h
    · rintro (h | h)
      · exact Or.inl (by exact_mod_cast h)
      · exact Or.inr h
  have hpos : (subUL now s.mLastSync ≥ s.mUpdateInterval ∨ s.mPacketSent = false) →
      update s now pkt = forceUpdate s now pkt := by
    intro h
    unfold update
    rw [if_pos (by simpa using h)]
  have hneg : ¬ (subUL now s.mLastSync ≥ s.mUpdateInterval ∨ s.mPacketSent = false) →
      update s now pkt = { ret := false, state := s, calls := [] } := by
    intro h
    unfold update
    rw [if_neg (by simpa using h)]
  refine ⟨fun h => hpos (hguard.mp h), fun h => ?_, fun hle hnow h => ?_, fun hle hnow h => ?_⟩
  · rw [hneg (fun h' => h (hguard.mpr h'))]
    exact ⟨rfl, rfl, rfl⟩
  · rw [← subUL_of_le now s.mLastSync hle hnow] at h
    exact hpos h
  · rw [← subUL_of_le now s.mLastSync hle hnow] at h
    exact hneg h

/-- Witness of C8: `pendingSession` at time 500 is inside the update interval with a request
pending, so `update` does nothing even though a complete reply is waiting; `freshSession` has
no request pending, so `update` is `forceUpdate`. -/
theorem update_eq_guarded_forceUpdate_witness :
    (update pendingSession 500 sampleReply).ret = false ∧
    (update pendingSession 500 sampleReply).calls = [] ∧
    (update pendingSession 500 sampleReply).state = pendingSession ∧
    update freshSession 500 sampleReply = forceUpdate freshSession 500 sampleReply :=
  have h := (update_eq_guarded_forceUpdate pendingSession 500 sampleReply).2.1 (by decide)
  ⟨h.1, h.2.1, h.2.2,
    (update_eq_guarded_forceUpdate freshSession 500 sampleReply).1 (Or.inr (by decide))⟩

/-- C9: for a clock reading `mLastSync ≤ now < 2^32`, `getEpochTime` is
`mTimeOffset + mCurrentEpoc + (now - mLastSync) / 1000` modulo `2^32`, with `mTimeOffset` a
signed integer; it is that sum itself when the sum lies in `[0, 2^32)`; and it is the same
for any two sessions that agree on `mTimeOffset`, `mCurrentEpoc` and `mLastSync`. -/
theorem getEpochTime_eq_sum (s : RtNTPClient) (now : Nat) (hle : s.mLastSync ≤ now)
    (hnow : now < 4294967296) :
    (getEpochTime s now : Int)
      = (s.mTimeOffset + (s.mCurrentEpoc : Int) + (((now - s.mLastSync) / 1000 : Nat) : Int))
          % 4294967296 ∧
    (0 ≤ s.mTimeOffset + (s.mCurrentEpoc : Int) + (((now - s.mLastSync) / 1000 : Nat) : Int) →
      s.mTimeOffset + (s.mCurrentEpoc : Int) + (((now - s.mLastSync) / 1000 : Nat) : Int)
        < 4294967296 →
      (getEpochTime s now : Int)
        = s.mTimeOffset + (s.mCurrentEpoc : Int) + (((now - s.mLastSync) / 1000 : Nat) : Int)) ∧
    (∀ t : RtNTPClient, t.mTimeOffset = s.mTimeOffset → t.mCurrentEpoc = s.mCurrentEpoc →
      t.mLastSync = s.mLastSync → getEpochTime t now = getEpochTime s now) := by
  have hsub := subUL_of_le now s.mLastSync hle hnow
  have hmain : (getEpochTime s now : Int)
      = (s.mTimeOffset + (s.mCurrentEpoc : Int) + (((now - s.mLastSync) / 1000 : Nat) : Int))
          % 4294967296 := by
    unfold getEpochTime addUL
    rw [hsub]
    unfold toUL
    omega
  refine ⟨hmain, fun h0 h1 => ?_, fun t e1 e2 e3 => ?_⟩
  · rw [hmain]
    omega
  · unfold getEpochTime
    rw [e1, e2, e3]

/-- Witness of C9: offset -3600, epoch 7200 synced at 1000 ms, read at 61000 ms: 3660. -/
theorem getEpochTime_eq_sum_witness :
    offsetSession.mLastSync ≤ 61000 ∧ getEpochTime offsetSession 61000 = 3660 :=
  have h := (getEpochTime_eq_sum offsetSession 61000 (by decide) (by decide)).2.1
    (by decide) (by decide)
  have e : offsetSession.mTimeOffset + (offsetSession.mCurrentEpoc : Int)
      + (((61000 - offsetSession.mLastSync) / 1000 : Nat) : Int) = 3660 := by decide
  ⟨by decide, by rw [e] at h; exact_mod_cast h⟩

/-- C10: with `e = getEpochTime` at the same reading, `getDay = (e / 86400 + 4) mod 7`,
`getHours = (e mod 86400) / 3600`, `getMinutes = (e mod 3600) / 60` and
`getSeconds = e mod 60`; `e = 0` gives day 4; and with `mCurrentEpoc = 0`, `mLastSync = 0`,
`mTimeOffset = 0` and `now = 3661000` the hours, minutes and seconds are all 1. -/
theorem calendar_accessors (s : RtNTPClient) (now : Nat) :
    getDay s now = (getEpochTime s now / 86400 + 4) % 7 ∧
    getHours s now = (getEpochTime s now % 86400) / 3600 ∧
    getMinutes s now = (getEpochTime s now % 3600) / 60 ∧
    getSeconds s now = getEpochTime s now % 60 ∧
    (getEpochTime s now = 0 → getDay s now = 4) ∧
    (s.mCurrentEpoc = 0 → s.mLastSync = 0 → s.mTimeOffset = 0 →
      getHours s 3661000 = 1 ∧ getMinutes s 3661000 = 1 ∧ getSeconds s 3661000 = 1) := by
  have hlt := getEpochTime_lt s now
  have hday : getDay s now = (getEpochTime s now / 86400 + 4) % 7 := by
    unfold getDay addUL
    omega
  refine ⟨hday, rfl, rfl, rfl, fun h0 => ?_, fun h1 h2 h3 => ?_⟩
  · rw [hday, h0]
  · have he : getEpochTime s 3661000 = 3661 := by
      unfold getEpochTime
      rw [h1, h2, h3]
      decide
    unfold getHours getMinutes getSeconds
    rw [he]
    exact ⟨rfl, rfl, rfl⟩

/-- Witness of C10: the freshly built session read at 3661000 ms. -/
theorem calendar_accessors_witness :
    getHours freshSession 3661000 = 1 ∧ getMinutes freshSession 3661000 = 1 ∧
    getSeconds freshSession 3661000 = 1 ∧ getDay freshSession 0 = 4 :=
  have h := (calendar_accessors freshSession 3661000).2.2.2.2.2 (by decide) (by decide)
    (by decide)
  ⟨h.1, h.2.1, h.2.2, (calendar_accessors freshSession 0).2.2.2.2.1 (by decide)⟩

/-- C11: `getFormattedTime` is the two-digit zero-padded decimal of `getHours`, a colon,
that of `getMinutes`, a colon, and that of `getSeconds`, all at the same reading; the string
is 8 characters long; at epoch 3661 it is `01:01:01`. -/
theorem getFormattedTime_eq (s : RtNTPClient) (now : Nat) :
    getFormattedTime s now
      = twoDigits (getHours s now) ++ ":" ++ twoDigits (getMinutes s now) ++ ":"
          ++ twoDigits (getSeconds s now) ∧
    (getFormattedTime s now).length = 8 ∧
    (getEpochTime s now = 3661 → getFormattedTime s now = "01:01:01") := by
  have hh : getEpochTime s now % 86400 / 3600 < 60 := by omega
  have hm : getEpochTime s now % 3600 / 60 < 60 := by omega
  have hs : getEpochTime s now % 60 < 60 := by omega
  have hfmt : getFormattedTime s now
      = twoDigits (getHours s now) ++ ":" ++ twoDigits (getMinutes s now) ++ ":"
          ++ twoDigits (getSeconds s now) := by
    unfold getFormattedTime getHours getMinutes getSeconds
    simp only []
    rw [pad_eq_twoDigits _ hh, pad_eq_twoDigits _ hm, pad_eq_twoDigits _ hs]
  refine ⟨hfmt, ?_, fun he => ?_⟩
  · rw [hfmt]
    simp only [String.length_append, twoDigits_length]
    rfl
  · rw [hfmt]
    unfold getHours getMinutes getSeconds
    rw [he]
    decide

/-- Witness of C11: the freshly built session read at 3661000 ms. -/
theorem getFormattedTime_eq_witness :
    getEpochTime freshSession 3661000 = 3661 ∧
    getFormattedTime freshSession 3661000 = "01:01:01" :=
  ⟨by decide, (getFormattedTime_eq freshSession 3661000).2.2 (by decide)⟩

/-- C12: idempotence while waiting.  From a session with a pending request, in a run of
`forceUpdate` calls at clock readings that are each at most 1000 ms (as an `unsigned long`
difference) after `mLastPacketSent`, each finding no datagram, every call returns false,
sends no request (its only transport call is `parsePacket`) and leaves the whole session as
it was, in particular `mCurrentEpoc` and `mPacketSent = true`. -/
theorem forceUpdateIdleRun_unchanged (s : RtNTPClient) (times : List Nat)
    (hsent : s.mPacketSent = true)
    (htimes : ∀ t ∈ times, ((t : Int) - s.mLastPacketSent) % 4294967296 ≤ 1000) :
    (forceUpdateIdleRun s times).length = times.length ∧
    ∀ o ∈ forceUpdateIdleRun s times,
      o.ret = false ∧ o.calls = [UdpCall.parsePacket] ∧ sentPackets o.calls = [] ∧
      o.state = s ∧ o.state.mCurrentEpoc = s.mCurrentEpoc ∧ o.state.mPacketSent = true := by
  induction times with
  | nil => exact ⟨rfl, fun o ho => by simp [forceUpdateIdleRun] at ho⟩
  | cons t rest ih =>
    have ht : subUL t s.mLastPacketSent ≤ NTP_DEFAULT_TIMEOUT := by
      have h := htimes t (List.mem_cons_self t rest)
      unfold subUL toUL NTP_DEFAULT_TIMEOUT
      omega
    have hstep := forceUpdate_idle s t hsent ht
    have ih' := ih (fun u hu => htimes u (List.mem_cons_of_mem t hu))
    simp only [forceUpdateIdleRun, hstep, List.length_cons, List.mem_cons]
    refine ⟨by rw [ih'.1], fun o ho => ?_⟩
    rcases ho with ho | ho
    · subst ho
      exact ⟨rfl, rfl, rfl, rfl, rfl, hsent⟩
    · exact ih'.2 o ho

/-- Witness of C12: three idle calls at 10, 500 and 1000 ms on `pendingSession`, whose request
was sent at 0 ms. -/
theorem forceUpdateIdleRun_unchanged_witness :
    pendingSession.mPacketSent = true ∧
    (forceUpdateIdleRun pendingSession [10, 500, 1000]).length = 3 ∧
    ∀ o ∈ forceUpdateIdleRun pendingSession [10, 500, 1000],
      o.ret = false ∧ o.calls = [UdpCall.parsePacket] ∧ sentPackets o.calls = [] ∧
      o.state = pendingSession ∧ o.state.mCurrentEpoc = pendingSession.mCurrentEpoc ∧
      o.state.mPacketSent = true :=
  ⟨by decide, forceUpdateIdleRun_unchanged pendingSession [10, 500, 1000] (by decide)
    (by decide)⟩

/-- C14: the setters.  `setTimeOffset v` stores `v` in `mTimeOffset` and `setUpdateInterval v`
stores `v` (converted to `unsigned int`, so `v` itself when `0 ≤ v < 2^32`) in
`mUpdateInterval`, for every `v`; each leaves every other field as it was.  After
`setTimeOffset v`, `getEpochTime` at any reading is its former value plus `v - mTimeOffset`,
modulo `2^32`. -/
theorem setters_frame (s : RtNTPClient) (v : Int) (now : Nat) :
    ((setTimeOffset s v).mTimeOffset = v ∧
      (setTimeOffset s v).mPoolServerName = s.mPoolServerName ∧
      (setTimeOffset s v).mUpdateInterval = s.mUpdateInterval ∧
      (setTimeOffset s v).mCurrentEpoc = s.mCurrentEpoc ∧
      (setTimeOffset s v).mLastSync = s.mLastSync ∧
      (setTimeOffset s v).mPacketBuffer = s.mPacketBuffer ∧
      (setTimeOffset s v).mPacketSent = s.mPacketSent ∧
      (setTimeOffset s v).mReceivedLen = s.mReceivedLen ∧
      (setTimeOffset s v).mUpdateTime = s.mUpdateTime ∧
      (setTimeOffset s v).mLastPacketSent = s.mLastPacketSent) ∧
    ((((setUpdateInterval s v).mUpdateInterval : Nat) : Int) = v % 4294967296 ∧
      (0 ≤ v → v < 4294967296 → (((setUpdateInterval s v).mUpdateInterval : Nat) : Int) = v) ∧
      (setUpdateInterval s v).mPoolServerName = s.mPoolServerName ∧
      (setUpdateInterval s v).mTimeOffset = s.mTimeOffset ∧
      (setUpdateInterval s v).mCurrentEpoc = s.mCurrentEpoc ∧
      (setUpdateInterval s v).mLastSync = s.mLastSync ∧
      (setUpdateInterval s v).mPacketBuffer = s.mPacketBuffer ∧
      (setUpdateInterval s v).mPacketSent = s.mPacketSent ∧
      (setUpdateInterval s v).mReceivedLen = s.mReceivedLen ∧
      (setUpdateInterval s v).mUpdateTime = s.mUpdateTime ∧
      (setUpdateInterval s v).mLastPacketSent = s.mLastPacketSent) ∧
    ((getEpochTime (setTimeOffset s v) now : Nat) : Int)
      = ((getEpochTime s now : Int) + (v - s.mTimeOffset)) % 4294967296 := by
  have hiv : (((setUpdateInterval s v).mUpdateInterval : Nat) : Int) = v % 4294967296 := by
    show ((toUL v : Nat) : Int) = v % 4294967296
    unfold toUL
    omega
  refine ⟨⟨rfl, rfl, rfl, rfl, rfl, rfl, rfl, rfl, rfl, rfl⟩,
    ⟨hiv, fun h0 h1 => ?_, rfl, rfl, rfl, rfl, rfl, rfl, rfl, rfl, rfl⟩, ?_⟩
  · rw [hiv]
    omega
  · show ((addUL (addUL (toUL v) s.mCurrentEpoc) (subUL now s.mLastSync / 1000) : Nat) : Int)
      = ((addUL (addUL (toUL s.mTimeOffset) s.mCurrentEpoc)
          (subUL now s.mLastSync / 1000) : Nat) + (v - s.mTimeOffset)) % 4294967296
    unfold addUL toUL
    omega

/-- Witness of C14: on `offsetSession` (offset -3600, read as 3660 at 61000 ms) the offset
7200 gives 14460 at the same reading, and the interval 60000 is stored as given. -/
theorem setters_frame_witness :
    getEpochTime (setTimeOffset offsetSession 7200) 61000 = 14460 ∧
    (setUpdateInterval offsetSession 60000).mUpdateInterval = 60000 :=
  have h := (setters_frame offsetSession 7200 61000).2.2
  have g := (setters_frame offsetSession 60000 0).2.1.2.1 (by decide) (by decide)
  have e : ((getEpochTime offsetSession 61000 : Int) + (7200 - offsetSession.mTimeOffset))
      % 4294967296 = 14460 := by decide
  ⟨by rw [e] at h; exact_mod_cast h, by exact_mod_cast g⟩

/-- C15: session invariant.  From the freshly built session, `forceUpdate` at 0 ms with no
datagram, at 10 ms with a 20-byte datagram and at 20 ms with a 48-byte datagram (each read
returns at most 48 bytes, no timeout elapses) leaves a request pending with
`mReceivedLen = 68`: the read is capped at the whole buffer size, not at the remaining
capacity, and the count passes 48. -/
theorem forceUpdate_count_exceeds_packet_size :
    fragmentSession
      = (forceUpdate (forceUpdate constructDefault.1 0 []).state 10 (sampleReply.take 20)).state ∧
    (sampleReply.take 20).length = 20 ∧ sampleReply.length = 48 ∧
    (forceUpdate fragmentSession 20 sampleReply).ret = false ∧
    (forceUpdate fragmentSession 20 sampleReply).state.mPacketSent = true ∧
    (forceUpdate fragmentSession 20 sampleReply).state.mReceivedLen = 68 := by
  decide

/-- C16: the last snapshot survives every call that does not sync.  If `forceUpdate` or
`update` returns false then `mCurrentEpoc`, `mLastSync` and `mTimeOffset` are as before, so
`getEpochTime` at every reading is as before; and either call returns true only if a
datagram was waiting. -/
theorem snapshot_preserved_without_sync (s : RtNTPClient) (now : Nat) (pkt : List Byte) :
    ((forceUpdate s now pkt).ret = false →
      (forceUpdate s now pkt).state.mCurrentEpoc = s.mCurrentEpoc ∧
      (forceUpdate s now pkt).state.mLastSync = s.mLastSync ∧
      (forceUpdate s now pkt).state.mTimeOffset = s.mTimeOffset ∧
      ∀ t, getEpochTime (forceUpdate s now pkt).state t = getEpochTime s t) ∧
    ((update s now pkt).ret = false →
      (update s now pkt).state.mCurrentEpoc = s.mCurrentEpoc ∧
      (update s now pkt).state.mLastSync = s.mLastSync ∧
      (update s now pkt).state.mTimeOffset = s.mTimeOffset ∧
      ∀ t, getEpochTime (update s now pkt).state t = getEpochTime s t) ∧
    ((forceUpdate s now pkt).ret = true → pkt ≠ []) ∧
    ((update s now pkt).ret = true → pkt ≠ []) := by
  have hforce : (forceUpdate s now pkt).ret = false →
      (forceUpdate s now pkt).state.mCurrentEpoc = s.mCurrentEpoc ∧
      (forceUpdate s now pkt).state.mLastSync = s.mLastSync ∧
      (forceUpdate s now pkt).state.mTimeOffset = s.mTimeOffset ∧
      ∀ t, getEpochTime (forceUpdate s now pkt).state t = getEpochTime s t := by
    intro hret
    have h := forceUpdate_false_snapshot s now pkt hret
    exact ⟨h.2.1, h.2.2, h.1, fun t => getEpochTime_congr s _ t h.1 h.2.1 h.2.2⟩
  refine ⟨hforce, fun hret => ?_, forceUpdate_true_datagram s now pkt, fun hret => ?_⟩
  · rcases update_cases s now pkt with h | h
    · rw [h] at hret ⊢
      exact hforce hret
    · rw [h]
      exact ⟨rfl, rfl, rfl, fun _ => rfl⟩
  · rcases update_cases s now pkt with h | h
    · rw [h] at hret
      exact forceUpdate_true_datagram s now pkt hret
    · rw [h] at hret
      exact Bool.noConfusion hret

/-- Witness of C16: `fragmentSession` times out at 1001 ms and receives a 5-byte datagram:
the call resends, returns false and keeps the snapshot; `syncedSession` was produced by a
call that returned true, and a datagram was waiting in it. -/
theorem snapshot_preserved_without_sync_witness :
    (forceUpdate fragmentSession 1001 (sampleReply.take 5)).ret = false ∧
    sentPackets (forceUpdate fragmentSession 1001 (sampleReply.take 5)).calls = [requestBytes] ∧
    getEpochTime (forceUpdate fragmentSession 1001 (sampleReply.take 5)).state 5000
      = getEpochTime fragmentSession 5000 ∧
    sampleReply ≠ [] :=
  ⟨by decide, by decide,
    ((snapshot_preserved_without_sync fragmentSession 1001 (sampleReply.take 5)).1
      (by decide)).2.2.2 5000,
    (snapshot_preserved_without_sync freshSession 7 sampleReply).2.2.1 (by decide)⟩

/-- C17: ranges.  At every reading `getDay ≤ 6`, `getHours ≤ 23`, `getMinutes ≤ 59` and
`getSeconds ≤ 59` (all are natural numbers), and
`getHours * 3600 + getMinutes * 60 + getSeconds = getEpochTime mod 86400`. -/
theorem calendar_ranges (s : RtNTPClient) (now : Nat) :
    0 ≤ getDay s now ∧ getDay s now ≤ 6 ∧
    0 ≤ getHours s now ∧ getHours s now ≤ 23 ∧
    0 ≤ getMinutes s now ∧ getMinutes s now ≤ 59 ∧
    0 ≤ getSeconds s now ∧ getSeconds s now ≤ 59 ∧
    getHours s now * 3600 + getMinutes s now * 60 + getSeconds s now
      = getEpochTime s now % 86400 := by
  unfold getDay getHours getMinutes getSeconds addUL
  omega

/-- C18, as stated, fails.  `westSession` has offset -18000, epoch 0 and `mLastSync = 0`.
With `t1 = 0` and `t2 = 18000000` the sum `mTimeOffset + mCurrentEpoc + (t2 - mLastSync) / 1000`
is 0, inside `[0, 2^32)`, yet `getEpochTime` is 4294949296 at `t1` and 0 at `t2`; and from
`t = 17999000` to `t + 1000` it goes from 4294967295 to 0, not up by 1.  So the statement
that conditions only on the sum at `t2` does not hold for all sessions and readings. -/
theorem getEpochTime_not_monotone_below_zero :
    (westSession.mLastSync ≤ 0 ∧ (0 : Nat) ≤ 18000000 ∧ 18000000 < 4294967296 ∧
      westSession.mTimeOffset + (westSession.mCurrentEpoc : Int)
        + (((18000000 - westSession.mLastSync) / 1000 : Nat) : Int) = 0 ∧
      getEpochTime westSession 0 = 4294949296 ∧ getEpochTime westSession 18000000 = 0 ∧
      getEpochTime westSession 17999000 = 4294967295 ∧
      getEpochTime westSession (17999000 + 1000) = 0) ∧
    ¬ (∀ (s : RtNTPClient) (t1 t2 : Nat), s.mLastSync ≤ t1 → t1 ≤ t2 → t2 < 4294967296 →
        0 ≤ s.mTimeOffset + (s.mCurrentEpoc : Int)
          + (((t2 - s.mLastSync) / 1000 : Nat) : Int) →
        s.mTimeOffset + (s.mCurrentEpoc : Int) + (((t2 - s.mLastSync) / 1000 : Nat) : Int)
          < 4294967296 →
        getEpochTime s t1 ≤ getEpochTime s t2) := by
  refine ⟨by decide, fun h => ?_⟩
  have hc := h westSession 0 18000000 (by decide) (by decide) (by decide) (by decide)
    (by decide)
  have e1 : getEpochTime westSession 0 = 4294949296 := by decide
  have e2 : getEpochTime westSession 18000000 = 0 := by decide
  rw [e1, e2] at hc
  exact absurd hc (by decide)

/-- C18, amended: monotonicity between syncs.  For one session and readings
`mLastSync ≤ t1 ≤ t2 < 2^32` such that `mTimeOffset + mCurrentEpoc + (t - mLastSync) / 1000`
is at least 0 at `t1` and below `2^32` at `t2`, `getEpochTime` at `t1` is at most
`getEpochTime` at `t2`, and `getEpochTime` at `t + 1000` is `getEpochTime` at `t` plus 1 for
every `t` with `t1 ≤ t` and `t + 1000 ≤ t2`. -/
theorem getEpochTime_monotone (s : RtNTPClient) (t1 t2 : Nat) (h1 : s.mLastSync ≤ t1)
    (h12 : t1 ≤ t2) (h2 : t2 < 4294967296)
    (hlow : 0 ≤ s.mTimeOffset + (s.mCurrentEpoc : Int)
      + (((t1 - s.mLastSync) / 1000 : Nat) : Int))
    (hhigh : s.mTimeOffset + (s.mCurrentEpoc : Int)
      + (((t2 - s.mLastSync) / 1000 : Nat) : Int) < 4294967296) :
    getEpochTime s t1 ≤ getEpochTime s t2 ∧
    ∀ t, t1 ≤ t → t + 1000 ≤ t2 → getEpochTime s (t + 1000) = getEpochTime s t + 1 := by
  have hval : ∀ t, t1 ≤ t → t ≤ t2 → (getEpochTime s t : Int)
      = s.mTimeOffset + (s.mCurrentEpoc : Int) + (((t - s.mLastSync) / 1000 : Nat) : Int) := by
    intro t ha hb
    have hsub := subUL_of_le t s.mLastSync (by omega) (by omega)
    unfold getEpochTime addUL
    rw [hsub]
    unfold toUL
    omega
  refine ⟨?_, fun t ha hb => ?_⟩
  · have e1 := hval t1 (le_refl _) h12
    have e2 := hval t2 h12 (le_refl _)
    omega
  · have e1 := hval t ha (by omega)
    have e2 := hval (t + 1000) (by omega) hb
    omega

/-- Witness of C18, amended: `offsetSession` (offset -3600, epoch 7200, synced at 1000 ms)
between 1000 ms and 61000 ms. -/
theorem getEpochTime_monotone_witness :
    offsetSession.mLastSync ≤ 1000 ∧
    getEpochTime offsetSession 1000 ≤ getEpochTime offsetSession 61000 ∧
    getEpochTime offsetSession (2500 + 1000) = getEpochTime offsetSession 2500 + 1 :=
  have h := getEpochTime_monotone offsetSession 1000 61000 (by decide) (by decide) (by decide)
    (by decide) (by decide)
  ⟨by decide, h.1, h.2 2500 (by decide) (by decide)⟩

end RtNTP
